import Mathlib

/-!
Verification of the reMarkable-sync document conversion core.

This file shallowly embeds the PDF renderer (`pdf-renderer`, `src/unnamed/part_003`)
and the document converter (`document-converter`, `src/unnamed/part_002`) of the
repository.  JavaScript numbers are modelled as exact rationals (ℚ); the claims
checked here involve tolerances and thresholds far coarser than double rounding.
The binary `.rm` decoder (`rm-parser`) is not part of the given sources, so the
outcome of `parseRmFile` is represented abstractly as data (a decoded `Page` or a
decode failure) rather than re-implemented.
-/

namespace RemarkableSync

/-! ## Data model (from `rm-parser` type signatures used by the renderer) -/

/-- A stroke point: position in device space plus a pressure-derived width
(`Point` in `rm-parser`, as consumed by `pdf-renderer`). -/
structure Point where
  x : ℚ
  y : ℚ
  width : ℚ
deriving Repr, DecidableEq

/-- The pen-type enumeration (`PenType` in `rm-parser`).  The renderer only
branches on the variant identity, never on the underlying numeric code, so the
enumeration is modelled as an inductive type; `UNKNOWN code` stands for any
numeric pen code outside the named variants (the renderer has explicit default
fallbacks for those). -/
inductive PenType where
  | BALLPOINT_1
  | BALLPOINT_2
  | MARKER_1
  | MARKER_2
  | FINELINER_1
  | FINELINER_2
  | PENCIL_1
  | PENCIL_2
  | MECHANICAL_PENCIL_1
  | MECHANICAL_PENCIL_2
  | BRUSH
  | HIGHLIGHTER_1
  | HIGHLIGHTER_2
  | PAINTBRUSH_2
  | CALLIGRAPHY
  | SHADER
  | ERASER
  | ERASER_AREA
  | UNKNOWN (code : Nat)
deriving Repr, DecidableEq

/-- A stroke (`Stroke` in `rm-parser`): pen type, palette color index, optional
packed ARGB color override (tag 8), and the point sequence. -/
structure Stroke where
  penType : PenType
  color : Nat
  colorArgb : Option Nat
  points : List Point
deriving Repr, DecidableEq

/-- A layer: ordered strokes (`Layer` in `rm-parser`). -/
structure Layer where
  strokes : List Stroke
deriving Repr, DecidableEq

/-- A text block (`TextBlock` in `rm-parser`): origin, device-space wrap width,
newline-delimited text, and character-offset → paragraph-style map (modelled as
an association list). -/
structure TextBlock where
  posX : ℚ
  posY : ℚ
  width : ℚ
  text : String
  paragraphStyles : List (Nat × Nat)
deriving Repr, DecidableEq

/-- A page (`Page` in `rm-parser` / `emptyPage` in the converter):
identifier, layers, text spans, text blocks and device-unit dimensions.
The element type of `textSpans` is internal to the missing `rm-parser`; the
converter and renderer never inspect it, so it is modelled as opaque strings. -/
structure Page where
  pageId : String
  layers : List Layer
  textSpans : List String
  textBlocks : List TextBlock
  width : ℚ
  height : ℚ
deriving Repr, DecidableEq

/-! ## Calibration constants (`pdf-renderer`) -/

/-- `RM_DEFAULT_WIDTH_PX = 1404`. -/
def RM_DEFAULT_WIDTH_PX : ℚ := 1404

/-- `RM_DEFAULT_HEIGHT_PX = 1872`. -/
def RM_DEFAULT_HEIGHT_PX : ℚ := 1872

/-- `RM_SCREEN_WIDTH_PX = 1620` (Paper Pro screen width in pixels). -/
def RM_SCREEN_WIDTH_PX : ℚ := 1620

/-- `RM_SCREEN_HEIGHT_PX = 2160`. -/
def RM_SCREEN_HEIGHT_PX : ℚ := 2160

/-- `SCALE = 514 / RM_DEFAULT_WIDTH_PX`: linear-length scale (raw widths → pt). -/
def SCALE : ℚ := 514 / RM_DEFAULT_WIDTH_PX

/-- `COORD_SCALE = 514 / RM_SCREEN_WIDTH_PX`: positional scale (screen px → pt). -/
def COORD_SCALE : ℚ := 514 / RM_SCREEN_WIDTH_PX

/-- `WIDTH_FACTOR = 0.216`: empirically calibrated stroke-width factor. -/
def WIDTH_FACTOR : ℚ := 0.216

/-! ## Page geometry (`computePageGeometry`, `toPdf`) -/

/-- `PageGeometry` as computed by `computePageGeometry`. -/
structure PageGeometry where
  xOffset : ℚ
  yOffset : ℚ
  pageWidthPt : ℚ
  pageHeightPt : ℚ
deriving Repr, DecidableEq

/-- `computePageGeometry`: x offset is half the screen width (810); page width is
the fixed 514pt; page height is the page's device height times `SCALE`.  The
`font` arguments of the source function are unused there and omitted. -/
def computePageGeometry (page : Page) : PageGeometry :=
  let halfScreenWidth := RM_SCREEN_WIDTH_PX / 2
  { xOffset := halfScreenWidth
    yOffset := 0
    pageWidthPt := RM_SCREEN_WIDTH_PX * COORD_SCALE
    pageHeightPt := page.height * SCALE }

/-- `toPdf`: maps a device-space position to PDF point space,
`px = (x + xOffset) * COORD_SCALE`, `py = pageHeightPt - (y - yOffset) * COORD_SCALE`. -/
def toPdf (x y : ℚ) (geo : PageGeometry) : ℚ × ℚ :=
  ((x + geo.xOffset) * COORD_SCALE,
   geo.pageHeightPt - (y - geo.yOffset) * COORD_SCALE)

/-! ## Colors and pen styles (`pdf-renderer`) -/

/-- An RGB color with channels in the 0–1 range. -/
structure Color where
  r : ℚ
  g : ℚ
  b : ℚ
deriving Repr, DecidableEq

/-- The `COLOR_MAP` table: palette index → RGB, exactly the 14 entries of the
source table. -/
def COLOR_MAP (index : Nat) : Option Color :=
  match index with
  | 0 => some ⟨0, 0, 0⟩
  | 1 => some ⟨0.5647, 0.5647, 0.5647⟩
  | 2 => some ⟨1, 1, 1⟩
  | 3 => some ⟨0.9804, 0.9059, 0.0980⟩
  | 4 => some ⟨0.5686, 0.8549, 0.4431⟩
  | 5 => some ⟨0.7529, 0.4980, 0.8235⟩
  | 6 => some ⟨0.1882, 0.2902, 0.8784⟩
  | 7 => some ⟨0.7608, 0.1922, 0.1961⟩
  | 8 => some ⟨0.5647, 0.5647, 0.5647⟩
  | 9 => some ⟨0.9804, 0.9059, 0.0980⟩
  | 10 => some ⟨0.5686, 0.8549, 0.4431⟩
  | 11 => some ⟨0.4549, 0.8235, 0.9098⟩
  | 12 => some ⟨0.7529, 0.4980, 0.8235⟩
  | 13 => some ⟨0.9804, 0.9059, 0.0980⟩
  | _ => none

/-- `getColor`: palette lookup with fallback to index 0 (black). -/
def getColor (colorIndex : Nat) : Color :=
  (COLOR_MAP colorIndex).getD ⟨0, 0, 0⟩

/-- The four channels produced by `getArgbColor`.  JavaScript `>>>` coerces its
operand to a 32-bit unsigned integer first, hence the `% 2 ^ 32`. -/
structure ArgbColor where
  a : ℚ
  r : ℚ
  g : ℚ
  b : ℚ
deriving Repr, DecidableEq

/-- `getArgbColor`: unpack a 32-bit ARGB word into per-channel 0–1 values. -/
def getArgbColor (argb : Nat) : ArgbColor :=
  let m := argb % 2 ^ 32
  { a := (m / 2 ^ 24 % 256 : ℕ) / 255
    r := (m / 2 ^ 16 % 256 : ℕ) / 255
    g := (m / 2 ^ 8 % 256 : ℕ) / 255
    b := (m % 256 : ℕ) / 255 }

/-- Per-pen rendering style (`PenStyle`). -/
structure PenStyle where
  opacity : ℚ
  isHighlighter : Bool
deriving Repr, DecidableEq

/-- The `PEN_STYLES` table: entries exactly as in the source; pen types absent
from the table (the two erasers and unknown codes) yield `none`. -/
def PEN_STYLES (penType : PenType) : Option PenStyle :=
  match penType with
  | .BALLPOINT_1 => some ⟨1.0, false⟩
  | .BALLPOINT_2 => some ⟨1.0, false⟩
  | .MARKER_1 => some ⟨1.0, false⟩
  | .MARKER_2 => some ⟨1.0, false⟩
  | .FINELINER_1 => some ⟨1.0, false⟩
  | .FINELINER_2 => some ⟨1.0, false⟩
  | .PENCIL_1 => some ⟨0.35, false⟩
  | .PENCIL_2 => some ⟨0.35, false⟩
  | .MECHANICAL_PENCIL_1 => some ⟨0.7, false⟩
  | .MECHANICAL_PENCIL_2 => some ⟨0.7, false⟩
  | .BRUSH => some ⟨1.0, false⟩
  | .HIGHLIGHTER_1 => some ⟨0.45, true⟩
  | .HIGHLIGHTER_2 => some ⟨0.45, true⟩
  | .PAINTBRUSH_2 => some ⟨1.0, false⟩
  | .CALLIGRAPHY => some ⟨1.0, false⟩
  | .SHADER => some ⟨0.3, true⟩
  | _ => none

/-- `getPenStyle`: table lookup with default `{opacity 1.0, not highlighter}`. -/
def getPenStyle (penType : PenType) : PenStyle :=
  (PEN_STYLES penType).getD ⟨1.0, false⟩

/-! ## Stroke width (`pointWidthPt`) -/

/-- The `base` local of `pointWidthPt`: raw width scaled by the linear
calibration constant and the width-correction factor. -/
def pointWidthBase (point : Point) : ℚ :=
  point.width * SCALE * WIDTH_FACTOR

/-- `pointWidthPt`: scale the raw point width by `SCALE * WIDTH_FACTOR`, then
clamp per pen type, mirroring the source `switch` exactly
(`Math.max(lo, Math.min(base, hi))`). -/
def pointWidthPt (point : Point) (penType : PenType) : ℚ :=
  let base := pointWidthBase point
  match penType with
  | .BALLPOINT_1 | .BALLPOINT_2 => max 0.3 (min base 3.0)
  | .FINELINER_1 | .FINELINER_2 => max 0.3 (min base 4.0)
  | .PENCIL_1 | .PENCIL_2 => max 0.2 (min base 4.0)
  | .MECHANICAL_PENCIL_1 | .MECHANICAL_PENCIL_2 => max 0.2 (min base 3.0)
  | .MARKER_1 | .MARKER_2 => max 1.0 (min base 15.0)
  | .CALLIGRAPHY => max 0.2 (min base 10.0)
  | .PAINTBRUSH_2 => max 0.3 (min base 8.0)
  | .BRUSH => max 0.2 (min base 10.0)
  | _ => max 0.2 (min base 20.0)

/-- The per-pen clamp interval `[lo, hi]` read off the branches of
`pointWidthPt`. -/
def clampRange (penType : PenType) : ℚ × ℚ :=
  match penType with
  | .BALLPOINT_1 | .BALLPOINT_2 => (0.3, 3.0)
  | .FINELINER_1 | .FINELINER_2 => (0.3, 4.0)
  | .PENCIL_1 | .PENCIL_2 => (0.2, 4.0)
  | .MECHANICAL_PENCIL_1 | .MECHANICAL_PENCIL_2 => (0.2, 3.0)
  | .MARKER_1 | .MARKER_2 => (1.0, 15.0)
  | .CALLIGRAPHY => (0.2, 10.0)
  | .PAINTBRUSH_2 => (0.3, 8.0)
  | .BRUSH => (0.2, 10.0)
  | _ => (0.2, 20.0)

/-! ## Stroke rendering (`renderStroke`, `renderHighlighterStroke`)

The renderer's effect on the PDF page is modelled as the list of operations it
emits, in order.  `drawLine` and `drawSvgPath` calls become `DrawOp.line` and
`DrawOp.svgPath`; the `pushOperators(setLineJoin(Round))` graphics-state call
becomes `DrawOp.setLineJoinRound`. -/

/-- One operation emitted to the PDF page by the stroke renderer. -/
inductive DrawOp where
  | line (start finish : ℚ × ℚ) (thickness : ℚ) (color : Color) (opacity : ℚ)
  | svgPath (pts : List (ℚ × ℚ)) (borderWidth : ℚ) (borderColor : Color)
      (borderOpacity : ℚ)
  | setLineJoinRound
deriving Repr, DecidableEq

/-- The color an operation draws with, if it is a drawing operation. -/
def DrawOp.colorOf : DrawOp → Option Color
  | .line _ _ _ c _ => some c
  | .svgPath _ _ c _ => some c
  | .setLineJoinRound => none

/-- The opacity an operation draws with, if it is a drawing operation. -/
def DrawOp.opacityOf : DrawOp → Option ℚ
  | .line _ _ _ _ o => some o
  | .svgPath _ _ _ o => some o
  | .setLineJoinRound => none

/-- Whether an operation actually draws (line or path), as opposed to setting
graphics state. -/
def DrawOp.isDrawing : DrawOp → Bool
  | .line _ _ _ _ _ => true
  | .svgPath _ _ _ _ => true
  | .setLineJoinRound => false

/-- The RGB part of an unpacked ARGB override. -/
def argbRgb (argb : Nat) : Color :=
  ⟨(getArgbColor argb).r, (getArgbColor argb).g, (getArgbColor argb).b⟩

/-- The color/opacity resolution block at the top of `renderStroke`: an ARGB
override (tag 8) wins over the palette index, and for the shader pen the
override's alpha channel replaces the pen's default opacity. -/
def resolveColorOpacity (stroke : Stroke) : Color × ℚ :=
  let style := getPenStyle stroke.penType
  match stroke.colorArgb with
  | some argbWord =>
      (argbRgb argbWord,
        if style.isHighlighter = true ∧ stroke.penType = PenType.SHADER then
          (getArgbColor argbWord).a
        else style.opacity)
  | none => (getColor stroke.color, style.opacity)

/-- The segment loop of `renderStroke`: one `drawLine` per consecutive point
pair, using the ending point's width. -/
def segmentOps (penType : PenType) (color : Color) (opacity : ℚ)
    (geo : PageGeometry) : List Point → List DrawOp
  | p0 :: p1 :: rest =>
      DrawOp.line (toPdf p0.x p0.y geo) (toPdf p1.x p1.y geo)
        (pointWidthPt p1 penType) color opacity
        :: segmentOps penType color opacity geo (p1 :: rest)
  | _ => []

/-- The point widths of a stroke, sorted ascending (the source sorts a copy of
the widths array with a numeric comparator; the sorted sequence of a multiset
of rationals is unique, so insertion sort yields the same list). -/
def sortedWidths (stroke : Stroke) : List ℚ :=
  List.insertionSort (· ≤ ·) (stroke.points.map Point.width)

/-- The `medianW` local of `renderHighlighterStroke`: the median point width
(`widths[floor(n/2)]` of the sorted widths) scaled by `SCALE * WIDTH_FACTOR`
and clamped to [1.0, 15.0]. -/
def medianPathWidth (stroke : Stroke) : ℚ :=
  let widths := sortedWidths stroke
  let medianRaw := widths.getD (widths.length / 2) 0 * SCALE * WIDTH_FACTOR
  max 1.0 (min medianRaw 15.0)

/-- The vertex list of the single SVG path built by `renderHighlighterStroke`.
The source serializes these vertices into an SVG `M`/`L` string with
coordinates rounded to two decimals, pre-flipped to SVG space
(`svgY = pageHeight - pdfY`); `drawSvgPath` with `y = pageHeightPt` flips them
back, so the drawn polyline runs through exactly these PDF-space vertices (up
to the 0.01pt serialization rounding, which is presentational). -/
def strokePath (stroke : Stroke) (geo : PageGeometry) : List (ℚ × ℚ) :=
  stroke.points.map fun p => toPdf p.x p.y geo

/-- `renderHighlighterStroke`: one round-line-join state change and one single
continuous path with the clamped median width. -/
def renderHighlighterStroke (stroke : Stroke) (color : Color) (opacity : ℚ)
    (geo : PageGeometry) : List DrawOp :=
  if stroke.points.length < 2 then []
  else
    [DrawOp.setLineJoinRound,
     DrawOp.svgPath (strokePath stroke geo) (medianPathWidth stroke) color opacity]

/-- `renderStroke`: skip strokes with fewer than 2 points and eraser strokes;
resolve color and opacity; then either one continuous highlighter path or one
line per segment. -/
def renderStroke (stroke : Stroke) (geo : PageGeometry) : List DrawOp :=
  if stroke.points.length < 2 then []
  else if stroke.penType = PenType.ERASER ∨ stroke.penType = PenType.ERASER_AREA then []
  else
    let style := getPenStyle stroke.penType
    let co := resolveColorOpacity stroke
    if style.isHighlighter = true then
      renderHighlighterStroke stroke co.1 co.2 geo
    else
      segmentOps stroke.penType co.1 co.2 geo stroke.points

/-! ## Page-level stroke rendering (`renderPageToPdf`, stroke passes) -/

/-- One pass of the stroke loops in `renderPageToPdf`: iterate the layers in
order and, within each layer, the strokes in order, rendering exactly the
strokes whose pen style's highlighter flag equals `hi`. -/
def renderPassOps (hi : Bool) (layers : List Layer) (geo : PageGeometry) : List DrawOp :=
  layers.flatMap fun layer =>
    layer.strokes.flatMap fun stroke =>
      if (getPenStyle stroke.penType).isHighlighter = hi then renderStroke stroke geo
      else []

/-- The stroke operations `renderPageToPdf` emits for a page: the highlighter
pass over all layers, then the regular pass over all layers (text-block
operations follow these and are not stroke operations). -/
def renderPageStrokeOps (page : Page) : List DrawOp :=
  let geo := computePageGeometry page
  renderPassOps true page.layers geo ++ renderPassOps false page.layers geo

/-- All strokes of a page, flattened in layer order then within-layer order. -/
def allStrokes (page : Page) : List Stroke :=
  page.layers.flatMap Layer.strokes

/-! ## Document conversion (`document-converter`, `src/unnamed/part_002`)

`parseRmFile` lives in the `rm-parser` module, which is not among the given
sources; the converter only observes whether it returns a `Page` or throws.
That outcome is therefore carried as data on each extracted page entry. -/

/-- The observable outcome of `parseRmFile` on a page's raw `.rm` bytes:
either the decoded `Page`, or a thrown decode error. -/
inductive DecodeOutcome where
  | ok (page : Page)
  | failed
deriving Repr, DecidableEq

/-- A `PageInfo` produced by archive extraction: page id, the raw `.rm` data
(represented by its decode outcome; `none` when no `.rm` file exists for the
page), and the optional vertical-scroll value from `cPages` metadata.  The
`template` field is never read by the conversion path and is omitted. -/
structure PageInfo where
  pageId : String
  rmData : Option DecodeOutcome
  verticalScroll : Option ℚ
deriving Repr, DecidableEq

/-- `emptyPage`: the canonical substitute page — no layers, no text, default
1404×1872 dimensions. -/
def emptyPage (pageId : String) : Page :=
  { pageId := pageId
    layers := []
    textSpans := []
    textBlocks := []
    width := 1404
    height := 1872 }

/-- The `maxY` accumulation loop of `convertToPdf`: fold over every layer,
stroke and point, starting from 0, keeping the largest y seen. -/
def pageMaxY (page : Page) : ℚ :=
  page.layers.foldl
    (fun m layer =>
      layer.strokes.foldl
        (fun m stroke =>
          stroke.points.foldl (fun m p => if p.y > m then p.y else m) m)
        m)
    0

/-- The vertical-scroll auto-extension block of `convertToPdf`: when the page
carries a vertical-scroll value, compare the scaled max stroke y
(`maxY * 0.885`) against `1.05 *` the page's default height and replace the
height only on strict excess.  The source's locals
(`defaultHeight = page.height`, `threshold = defaultHeight * 1.05`,
`scaledHeight = maxY * 0.885`) are inlined. -/
def autoExtend (verticalScroll : Option ℚ) (page : Page) : Page :=
  match verticalScroll with
  | none => page
  | some _ =>
      if pageMaxY page * 0.885 > page.height * 1.05 then
        { page with height := pageMaxY page * 0.885 }
      else page

/-- The per-page body of the loop in `convertToPdf`: a decoded page gets its
`pageId` overwritten with the archive's page id and is then auto-extended; a
missing `.rm` file or a decode failure yields the canonical empty page. -/
def processPage (pageInfo : PageInfo) : Page :=
  match pageInfo.rmData with
  | some (DecodeOutcome.ok page) =>
      autoExtend pageInfo.verticalScroll { page with pageId := pageInfo.pageId }
  | some DecodeOutcome.failed => emptyPage pageInfo.pageId
  | none => emptyPage pageInfo.pageId

/-- `DocumentConverter.convertToPdf`, at the granularity the claims need: the
only error the converter itself raises is `"No pages found in document"` when
the extracted page list is empty; otherwise every page is processed and handed
to the renderer (`renderPageToPdf` / `renderNotebookToPdf`), whose emitted
page list is the result. -/
def convertToPdf (pages : List PageInfo) : Except String (List Page) :=
  if pages.length = 0 then Except.error "No pages found in document"
  else Except.ok (pages.map processPage)

/-! ## Concrete probe data for witnesses and counterexamples -/

/-- A one-layer page with a single two-point stroke from (0, 0) to (0, y),
decoded page id `"decoded"`, and the given height. -/
def probePage (y h : ℚ) : Page :=
  { pageId := "decoded"
    layers := [⟨[⟨PenType.FINELINER_1, 0, none, [⟨0, 0, 1⟩, ⟨0, y, 1⟩]⟩]⟩]
    textSpans := []
    textBlocks := []
    width := 1404
    height := h }

/-- A `PageInfo` whose `.rm` data decodes to `probePage y h`, with the
vertical-scroll flag set and archive page id `"page-1"`. -/
def probeInfo (y h : ℚ) : PageInfo :=
  { pageId := "page-1"
    rmData := some (DecodeOutcome.ok (probePage y h))
    verticalScroll := some 0 }

end RemarkableSync

namespace RemarkableSync

/-- C1: For every page and every y, the positional transform sends device
x = -213 to within 0.2pt of 189.4pt and device x = 290 to within 0.2pt of
348.9pt; and in general the output x is (device x + 810) * 514/1620. -/
theorem coord_transform_calibration (page : Page) (y : ℚ) :
    |(toPdf (-213) y (computePageGeometry page)).1 - 189.4| ≤ 0.2 ∧
    |(toPdf 290 y (computePageGeometry page)).1 - 348.9| ≤ 0.2 ∧
    ∀ x : ℚ, (toPdf x y (computePageGeometry page)).1 = (x + 810) * (514 / 1620) := by
  refine ⟨?_, ?_, ?_⟩
  · rw [abs_le]
    constructor <;>
      · simp only [toPdf, computePageGeometry, COORD_SCALE, RM_SCREEN_WIDTH_PX]
        norm_num
  · rw [abs_le]
    constructor <;>
      · simp only [toPdf, computePageGeometry, COORD_SCALE, RM_SCREEN_WIDTH_PX]
        norm_num
  · intro x
    simp only [toPdf, computePageGeometry, COORD_SCALE, RM_SCREEN_WIDTH_PX]
    norm_num

/-- C5: For every pen type and every point with non-negative raw width, the
computed stroke width lies within that pen's clamp interval; and the fineliner
interval is [0.3, 4.0]pt while the marker interval is [1.0, 15.0]pt. -/
theorem pointWidthPt_within_clamp (point : Point) (penType : PenType)
    (hw : 0 ≤ point.width) :
    ((clampRange penType).1 ≤ pointWidthPt point penType ∧
      pointWidthPt point penType ≤ (clampRange penType).2) ∧
    clampRange PenType.FINELINER_1 = (0.3, 4.0) ∧
    clampRange PenType.FINELINER_2 = (0.3, 4.0) ∧
    clampRange PenType.MARKER_1 = (1.0, 15.0) ∧
    clampRange PenType.MARKER_2 = (1.0, 15.0) := by
  refine ⟨?_, rfl, rfl, rfl, rfl⟩
  cases penType <;>
    · unfold pointWidthPt clampRange
      exact ⟨le_max_left _ _, max_le (by norm_num) (min_le_right _ _)⟩

/-- Witness for C5 at a concrete point and pen. -/
theorem pointWidthPt_within_clamp_witness :
    (0 : ℚ) ≤ (5 : ℚ) ∧
    ((clampRange PenType.FINELINER_1).1 ≤ pointWidthPt ⟨0, 0, 5⟩ PenType.FINELINER_1 ∧
      pointWidthPt ⟨0, 0, 5⟩ PenType.FINELINER_1 ≤ (clampRange PenType.FINELINER_1).2) :=
  ⟨by norm_num, (pointWidthPt_within_clamp ⟨0, 0, 5⟩ PenType.FINELINER_1 (by norm_num)).1⟩

/-- C6: An eraser stroke (either eraser variant) or a stroke with fewer than 2
points emits no operation at all. -/
theorem eraser_or_short_stroke_draws_nothing (stroke : Stroke) (geo : PageGeometry)
    (h : stroke.penType = PenType.ERASER ∨ stroke.penType = PenType.ERASER_AREA ∨
      stroke.points.length < 2) :
    renderStroke stroke geo = [] := by
  unfold renderStroke
  rcases h with h | h | h <;> simp [h]

/-- Witness for C6: a two-point eraser stroke renders to nothing. -/
theorem eraser_or_short_stroke_draws_nothing_witness :
    ((Stroke.mk PenType.ERASER 0 none [⟨0, 0, 1⟩, ⟨1, 1, 1⟩]).penType = PenType.ERASER ∨
      (Stroke.mk PenType.ERASER 0 none [⟨0, 0, 1⟩, ⟨1, 1, 1⟩]).penType = PenType.ERASER_AREA ∨
      (Stroke.mk PenType.ERASER 0 none [⟨0, 0, 1⟩, ⟨1, 1, 1⟩]).points.length < 2) ∧
    renderStroke (Stroke.mk PenType.ERASER 0 none [⟨0, 0, 1⟩, ⟨1, 1, 1⟩]) ⟨810, 0, 514, 100⟩ = [] :=
  ⟨Or.inl rfl,
   eraser_or_short_stroke_draws_nothing (Stroke.mk PenType.ERASER 0 none [⟨0, 0, 1⟩, ⟨1, 1, 1⟩])
     ⟨810, 0, 514, 100⟩ (Or.inl rfl)⟩

/-- Every operation of the segment loop carries the resolved color and
opacity. -/
theorem segmentOps_color_opacity (penType : PenType) (color : Color) (opacity : ℚ)
    (geo : PageGeometry) (pts : List Point) :
    ∀ op ∈ segmentOps penType color opacity geo pts,
      op.colorOf = some color ∧ op.opacityOf = some opacity := by
  induction pts with
  | nil => intro op hop; simp [segmentOps] at hop
  | cons p rest ih =>
    cases rest with
    | nil => intro op hop; simp [segmentOps] at hop
    | cons q rest2 =>
      intro op hop
      rw [segmentOps] at hop
      rcases List.mem_cons.mp hop with h | h
      · subst h; exact ⟨rfl, rfl⟩
      · exact ih op h

/-- If the pen style is highlighter-class, the pen is not an eraser variant
(the eraser variants are absent from `PEN_STYLES` and get the non-highlighter
default style). -/
theorem isHighlighter_not_eraser (penType : PenType)
    (h : (getPenStyle penType).isHighlighter = true) :
    ¬(penType = PenType.ERASER ∨ penType = PenType.ERASER_AREA) := by
  rintro (rfl | rfl) <;> simp [getPenStyle, PEN_STYLES] at h

/-- C7: When a stroke carries an explicit ARGB override, every operation it
emits draws with the override's RGB channels, and its opacity is the
override's alpha channel exactly when the pen is the shader, the pen's
default opacity otherwise. -/
theorem argb_override_wins (stroke : Stroke) (geo : PageGeometry) (argbWord : Nat)
    (h : stroke.colorArgb = some argbWord) :
    ∀ op ∈ renderStroke stroke geo,
      (op.colorOf = none ∨ op.colorOf = some (argbRgb argbWord)) ∧
      (op.opacityOf = none ∨
        op.opacityOf = some (if stroke.penType = PenType.SHADER then
          (getArgbColor argbWord).a else (getPenStyle stroke.penType).opacity)) := by
  intro op hop
  have hco : resolveColorOpacity stroke =
      (argbRgb argbWord,
        if stroke.penType = PenType.SHADER then (getArgbColor argbWord).a
        else (getPenStyle stroke.penType).opacity) := by
    unfold resolveColorOpacity
    rw [h]
    by_cases hs : stroke.penType = PenType.SHADER
    · simp [hs, getPenStyle, PEN_STYLES]
    · have : ¬((getPenStyle stroke.penType).isHighlighter = true ∧
          stroke.penType = PenType.SHADER) := by
        rintro ⟨-, h2⟩; exact hs h2
      simp [this, hs]
  unfold renderStroke at hop
  by_cases h1 : stroke.points.length < 2
  · simp [h1] at hop
  · by_cases h2 : stroke.penType = PenType.ERASER ∨ stroke.penType = PenType.ERASER_AREA
    · simp [h1, h2] at hop
    · simp only [h1, h2, if_false, if_neg] at hop
      by_cases h3 : (getPenStyle stroke.penType).isHighlighter = true
      · rw [if_pos h3] at hop
        unfold renderHighlighterStroke at hop
        rw [if_neg h1, hco] at hop
        rcases List.mem_cons.mp hop with h4 | h4
        · subst h4
          exact ⟨Or.inl rfl, Or.inl rfl⟩
        · rcases List.mem_cons.mp h4 with h5 | h5
          · subst h5
            exact ⟨Or.inr rfl, Or.inr rfl⟩
          · simp at h5
      · rw [if_neg h3, hco] at hop
        have := segmentOps_color_opacity stroke.penType (argbRgb argbWord)
          (if stroke.penType = PenType.SHADER then (getArgbColor argbWord).a
            else (getPenStyle stroke.penType).opacity) geo stroke.points op hop
        exact ⟨Or.inr this.1, Or.inr this.2⟩

/-- Witness for C7: a two-point shader stroke with ARGB override 0x80FF0000
draws one path in pure red at opacity 128/255. -/
theorem argb_override_wins_witness :
    (Stroke.mk PenType.SHADER 0 (some 0x80FF0000) [⟨0, 0, 1⟩, ⟨1, 1, 1⟩]).colorArgb =
      some 0x80FF0000 ∧
    ∀ op ∈ renderStroke (Stroke.mk PenType.SHADER 0 (some 0x80FF0000) [⟨0, 0, 1⟩, ⟨1, 1, 1⟩])
        ⟨810, 0, 514, 100⟩,
      (op.colorOf = none ∨ op.colorOf = some (argbRgb 0x80FF0000)) ∧
      (op.opacityOf = none ∨
        op.opacityOf = some (if (Stroke.mk PenType.SHADER 0 (some 0x80FF0000)
            [⟨0, 0, 1⟩, ⟨1, 1, 1⟩]).penType = PenType.SHADER then
          (getArgbColor 0x80FF0000).a
        else (getPenStyle (Stroke.mk PenType.SHADER 0 (some 0x80FF0000)
            [⟨0, 0, 1⟩, ⟨1, 1, 1⟩]).penType).opacity)) :=
  ⟨rfl,
   argb_override_wins (Stroke.mk PenType.SHADER 0 (some 0x80FF0000) [⟨0, 0, 1⟩, ⟨1, 1, 1⟩])
     ⟨810, 0, 514, 100⟩ 0x80FF0000 rfl⟩

/-- C8: A highlighter-class stroke with at least 2 points emits exactly one
drawing operation: a single continuous path whose width is the clamped scaled
median point width; the clamp keeps that width in [1.0, 15.0]. -/
theorem highlighter_single_path (stroke : Stroke) (geo : PageGeometry)
    (hhi : (getPenStyle stroke.penType).isHighlighter = true)
    (hlen : 2 ≤ stroke.points.length) :
    renderStroke stroke geo =
      [DrawOp.setLineJoinRound,
       DrawOp.svgPath (strokePath stroke geo) (medianPathWidth stroke)
         (resolveColorOpacity stroke).1 (resolveColorOpacity stroke).2] ∧
    ((renderStroke stroke geo).filter (fun op => op.isDrawing)).length = 1 ∧
    medianPathWidth stroke =
      max 1.0 (min ((sortedWidths stroke).getD ((sortedWidths stroke).length / 2) 0
        * SCALE * WIDTH_FACTOR) 15.0) ∧
    1.0 ≤ medianPathWidth stroke ∧ medianPathWidth stroke ≤ 15.0 := by
  have h1 : ¬stroke.points.length < 2 := Nat.not_lt.mpr hlen
  have h2 := isHighlighter_not_eraser stroke.penType hhi
  have heq : renderStroke stroke geo =
      [DrawOp.setLineJoinRound,
       DrawOp.svgPath (strokePath stroke geo) (medianPathWidth stroke)
         (resolveColorOpacity stroke).1 (resolveColorOpacity stroke).2] := by
    unfold renderStroke
    rw [if_neg h1, if_neg h2, if_pos hhi]
    unfold renderHighlighterStroke
    rw [if_neg h1]
  refine ⟨heq, ?_, rfl, ?_, ?_⟩
  · rw [heq]; rfl
  · exact le_max_left _ _
  · exact max_le (by norm_num) (min_le_right _ _)

/-- Rendering a list of strokes while skipping those outside one class is the
same as filtering to that class first: order within the list is preserved. -/
theorem flatMap_if_eq_filter_flatMap {α β : Type} (p : α → Bool) (hi : Bool)
    (g : α → List β) (xs : List α) :
    (xs.flatMap fun a => if p a = hi then g a else []) =
    (xs.filter fun a => p a == hi).flatMap g := by
  induction xs with
  | nil => rfl
  | cons x xs ih =>
    by_cases h : p x = hi <;> simp [List.flatMap_cons, List.filter_cons, h, ih]

/-- One stroke pass over the layers equals rendering the flattened,
class-filtered stroke list in order. -/
theorem renderPassOps_eq_filter (hi : Bool) (layers : List Layer) (geo : PageGeometry) :
    renderPassOps hi layers geo =
    ((layers.flatMap Layer.strokes).filter
      (fun s => (getPenStyle s.penType).isHighlighter == hi)).flatMap
      (fun s => renderStroke s geo) := by
  induction layers with
  | nil => rfl
  | cons layer layers ih =>
    unfold renderPassOps at ih ⊢
    rw [List.flatMap_cons, ih, List.flatMap_cons, List.filter_append,
      List.flatMap_append, flatMap_if_eq_filter_flatMap]

/-- C9: The stroke operations of a page are exactly those of all
highlighter-class strokes (in layer order, then within-layer stroke order)
followed by those of all non-highlighter strokes (in the same preserved
order). -/
theorem two_pass_paint_order (page : Page) :
    renderPageStrokeOps page =
      ((allStrokes page).filter
        (fun s => (getPenStyle s.penType).isHighlighter)).flatMap
        (fun s => renderStroke s (computePageGeometry page)) ++
      ((allStrokes page).filter
        (fun s => !(getPenStyle s.penType).isHighlighter)).flatMap
        (fun s => renderStroke s (computePageGeometry page)) := by
  unfold renderPageStrokeOps allStrokes
  show renderPassOps true page.layers (computePageGeometry page) ++
      renderPassOps false page.layers (computePageGeometry page) = _
  rw [renderPassOps_eq_filter, renderPassOps_eq_filter]
  simp

/-- Witness for C8: a three-point highlighter stroke emits one path of clamped
median width. -/
theorem highlighter_single_path_witness :
    (getPenStyle (Stroke.mk PenType.HIGHLIGHTER_1 3 none
      [⟨0, 0, 4⟩, ⟨10, 0, 6⟩, ⟨20, 0, 5⟩]).penType).isHighlighter = true ∧
    2 ≤ (Stroke.mk PenType.HIGHLIGHTER_1 3 none
      [⟨0, 0, 4⟩, ⟨10, 0, 6⟩, ⟨20, 0, 5⟩]).points.length ∧
    ((renderStroke (Stroke.mk PenType.HIGHLIGHTER_1 3 none
        [⟨0, 0, 4⟩, ⟨10, 0, 6⟩, ⟨20, 0, 5⟩]) ⟨810, 0, 514, 100⟩).filter
      (fun op => op.isDrawing)).length = 1 :=
  ⟨rfl, by norm_num,
   (highlighter_single_path (Stroke.mk PenType.HIGHLIGHTER_1 3 none
       [⟨0, 0, 4⟩, ⟨10, 0, 6⟩, ⟨20, 0, 5⟩]) ⟨810, 0, 514, 100⟩ rfl (by norm_num)).2.1⟩

/-- `autoExtend` without a vertical-scroll value is the identity. -/
theorem autoExtend_none (page : Page) : autoExtend none page = page := rfl

/-- `autoExtend` with a vertical-scroll value is the threshold comparison. -/
theorem autoExtend_some (v : ℚ) (page : Page) :
    autoExtend (some v) page =
      if pageMaxY page * 0.885 > page.height * 1.05 then
        { page with height := pageMaxY page * 0.885 }
      else page := rfl

/-- A decoded page is processed by overwriting its id and auto-extending. -/
theorem processPage_ok (pageInfo : PageInfo) (page : Page)
    (hrm : pageInfo.rmData = some (DecodeOutcome.ok page)) :
    processPage pageInfo =
      autoExtend pageInfo.verticalScroll { page with pageId := pageInfo.pageId } := by
  unfold processPage
  rw [hrm]

/-- The maximum stroke y of a probe page is its single positive y. -/
theorem pageMaxY_probePage (y h : ℚ) (hy : 0 < y) : pageMaxY (probePage y h) = y := by
  unfold pageMaxY probePage
  norm_num
  intro hle
  exact absurd hy (not_lt.mpr hle)

/-- Processing a probe page reduces to the threshold comparison. -/
theorem processPage_probe (y h : ℚ) :
    processPage (probeInfo y h) =
      if pageMaxY (probePage y h) * 0.885 > h * 1.05 then
        { probePage y h with pageId := "page-1", height := pageMaxY (probePage y h) * 0.885 }
      else { probePage y h with pageId := "page-1" } := rfl

/-- C2: A page whose `.rm` data fails to decode (or is absent) is replaced by
the canonical empty page — no layers, no text blocks, 1404×1872 — and the
whole conversion still succeeds; the conversion errors out exactly when the
extracted page list is empty, and otherwise outputs one processed page per
input page. -/
theorem decode_failure_recovered_error_iff_empty (pages : List PageInfo) :
    (convertToPdf pages = Except.error "No pages found in document" ↔
      pages.length = 0) ∧
    (pages.length ≠ 0 → convertToPdf pages = Except.ok (pages.map processPage)) ∧
    (∀ pageInfo : PageInfo,
      pageInfo.rmData = some DecodeOutcome.failed ∨ pageInfo.rmData = none →
        processPage pageInfo = emptyPage pageInfo.pageId) ∧
    (∀ pid : String,
      (emptyPage pid).layers = [] ∧ (emptyPage pid).textBlocks = [] ∧
      (emptyPage pid).width = 1404 ∧ (emptyPage pid).height = 1872) := by
  refine ⟨?_, ?_, ?_, fun pid => ⟨rfl, rfl, rfl, rfl⟩⟩
  · by_cases h : pages.length = 0 <;> simp [convertToPdf, h]
  · intro h; simp [convertToPdf, h]
  · intro pageInfo h
    unfold processPage
    rcases h with h | h <;> rw [h]

/-- Witness for C2: a one-page document whose page fails to decode converts
successfully, to the canonical empty page. -/
theorem decode_failure_recovered_error_iff_empty_witness :
    ([(⟨"p", some DecodeOutcome.failed, none⟩ : PageInfo)] : List PageInfo).length ≠ 0 ∧
    convertToPdf [(⟨"p", some DecodeOutcome.failed, none⟩ : PageInfo)] =
      Except.ok ([(⟨"p", some DecodeOutcome.failed, none⟩ : PageInfo)].map processPage) :=
  ⟨by norm_num,
   (decode_failure_recovered_error_iff_empty
     [(⟨"p", some DecodeOutcome.failed, none⟩ : PageInfo)]).2.1 (by norm_num)⟩

/-- C3 counterexample: a one-page document with the vertical-scroll flag set
and maximum stroke y = 2200 keeps its default height 1872 — it is NOT extended
to 2200·0.885, because 2200·0.885 = 1947 does not exceed the threshold
1872·1.05 = 1965.6. -/
theorem scroll_2200_not_extended :
    pageMaxY (probePage 2200 1872) = 2200 ∧
    (probeInfo 2200 1872).verticalScroll = some 0 ∧
    (processPage (probeInfo 2200 1872)).height = 1872 ∧
    (1872 : ℚ) ≠ 2200 * 0.885 := by
  have hmax : pageMaxY (probePage 2200 1872) = 2200 :=
    pageMaxY_probePage 2200 1872 (by norm_num)
  refine ⟨hmax, rfl, ?_, by norm_num⟩
  rw [processPage_probe, hmax, if_neg (by norm_num)]
  rfl

/-- C3 (amended): For a one-page document whose page decoded with the default
height 1872, the height stays 1872 whenever the maximum stroke y is 2200
(2200·0.885 = 1947 does not exceed 1872·1.05 = 1965.6), whenever it is 1900,
and whenever the vertical-scroll flag is absent. -/
theorem scroll_below_threshold_keeps_default (pageInfo : PageInfo) (page : Page)
    (hrm : pageInfo.rmData = some (DecodeOutcome.ok page))
    (hh : page.height = 1872)
    (hy : pageMaxY page = 2200 ∨ pageMaxY page = 1900 ∨
      pageInfo.verticalScroll = none) :
    (processPage pageInfo).height = 1872 := by
  rw [processPage_ok pageInfo page hrm]
  cases hvs : pageInfo.verticalScroll with
  | none => rw [autoExtend_none]; exact hh
  | some v =>
    rw [autoExtend_some, if_neg]
    · exact hh
    · have h1 : pageMaxY { page with pageId := pageInfo.pageId } = pageMaxY page := rfl
      have h2 : ({ page with pageId := pageInfo.pageId } : Page).height = page.height := rfl
      rw [h1, h2, hh]
      rcases hy with hy | hy | hy
      · rw [hy]; norm_num
      · rw [hy]; norm_num
      · rw [hvs] at hy; exact absurd hy (by simp)

/-- Witness for C3 (amended) at the concrete 2200 scenario. -/
theorem scroll_below_threshold_keeps_default_witness :
    (probeInfo 2200 1872).rmData = some (DecodeOutcome.ok (probePage 2200 1872)) ∧
    (probePage 2200 1872).height = 1872 ∧
    pageMaxY (probePage 2200 1872) = 2200 ∧
    (processPage (probeInfo 2200 1872)).height = 1872 :=
  ⟨rfl, rfl, pageMaxY_probePage 2200 1872 (by norm_num),
   scroll_below_threshold_keeps_default (probeInfo 2200 1872) (probePage 2200 1872) rfl rfl
     (Or.inl (pageMaxY_probePage 2200 1872 (by norm_num)))⟩

/-- C4: With the vertical-scroll flag present, auto-extension uses a strict
threshold: a scaled max stroke y exactly equal to 1.05× the default height
leaves the height unchanged, while a strictly greater value replaces the
height with the scaled value; and the page geometry later derives its height
in points from the (possibly replaced) page height, so extension precedes
geometry calibration. -/
theorem auto_extension_strict_threshold (pageInfo : PageInfo) (page : Page) (v : ℚ)
    (hrm : pageInfo.rmData = some (DecodeOutcome.ok page))
    (hvs : pageInfo.verticalScroll = some v) :
    (pageMaxY page * 0.885 = page.height * 1.05 →
      (processPage pageInfo).height = page.height) ∧
    (pageMaxY page * 0.885 > page.height * 1.05 →
      (processPage pageInfo).height = pageMaxY page * 0.885) ∧
    (computePageGeometry (processPage pageInfo)).pageHeightPt =
      (processPage pageInfo).height * SCALE := by
  have h1 : pageMaxY { page with pageId := pageInfo.pageId } = pageMaxY page := rfl
  have h2 : ({ page with pageId := pageInfo.pageId } : Page).height = page.height := rfl
  refine ⟨?_, ?_, rfl⟩
  · intro heq
    have hnot : ¬pageMaxY { page with pageId := pageInfo.pageId } * 0.885 >
        ({ page with pageId := pageInfo.pageId } : Page).height * 1.05 := by
      rw [h1, h2, heq]; exact lt_irrefl _
    rw [processPage_ok pageInfo page hrm, hvs, autoExtend_some, if_neg hnot]
  · intro hgt
    have hcond : pageMaxY { page with pageId := pageInfo.pageId } * 0.885 >
        ({ page with pageId := pageInfo.pageId } : Page).height * 1.05 := by
      rw [h1, h2]; exact hgt
    rw [processPage_ok pageInfo page hrm, hvs, autoExtend_some, if_pos hcond]
    show pageMaxY { page with pageId := pageInfo.pageId } * 0.885 = pageMaxY page * 0.885
    rw [h1]

/-- Witness for C4: with height 59 and max stroke y = 70 the scaled max
(70·0.885 = 61.95) equals the threshold (59·1.05 = 61.95) exactly, and the
height is not replaced. -/
theorem auto_extension_strict_threshold_witness :
    (probeInfo 70 59).rmData = some (DecodeOutcome.ok (probePage 70 59)) ∧
    (probeInfo 70 59).verticalScroll = some 0 ∧
    pageMaxY (probePage 70 59) * 0.885 = (probePage 70 59).height * 1.05 ∧
    (processPage (probeInfo 70 59)).height = (probePage 70 59).height := by
  have heq : pageMaxY (probePage 70 59) * 0.885 = (probePage 70 59).height * 1.05 := by
    rw [pageMaxY_probePage 70 59 (by norm_num)]
    show (70 : ℚ) * 0.885 = 59 * 1.05
    norm_num
  exact ⟨rfl, rfl, heq,
    (auto_extension_strict_threshold (probeInfo 70 59) (probePage 70 59) 0 rfl rfl).1 heq⟩

/-- C10 counterexample: the converter overwrites the decoded page's identifier
with the archive's page id, so a field other than the height changes between
decoding and rendering. -/
theorem pageId_overwritten :
    (probePage 5 1872).pageId = "decoded" ∧
    (processPage (probeInfo 5 1872)).pageId = "page-1" ∧
    (processPage (probeInfo 5 1872)).pageId ≠ (probePage 5 1872).pageId := by
  have hp : processPage (probeInfo 5 1872) = { probePage 5 1872 with pageId := "page-1" } := by
    rw [processPage_probe, pageMaxY_probePage 5 1872 (by norm_num), if_neg (by norm_num)]
  refine ⟨rfl, ?_, ?_⟩ <;> rw [hp] <;> decide

/-- C10 (amended): For a successfully decoded page, the converter leaves the
layers, text spans, text blocks and width unchanged; only the height (by
auto-extension) and the page identifier (overwritten with the archive's page
id) may change. -/
theorem converter_frame_effect (pageInfo : PageInfo) (page : Page)
    (hrm : pageInfo.rmData = some (DecodeOutcome.ok page)) :
    (processPage pageInfo).layers = page.layers ∧
    (processPage pageInfo).textSpans = page.textSpans ∧
    (processPage pageInfo).textBlocks = page.textBlocks ∧
    (processPage pageInfo).width = page.width ∧
    (processPage pageInfo).pageId = pageInfo.pageId ∧
    ((processPage pageInfo).height = page.height ∨
      (processPage pageInfo).height = pageMaxY page * 0.885) := by
  rw [processPage_ok pageInfo page hrm]
  cases hvs : pageInfo.verticalScroll with
  | none => exact ⟨rfl, rfl, rfl, rfl, rfl, Or.inl rfl⟩
  | some v =>
    rw [autoExtend_some]
    by_cases hc : pageMaxY { page with pageId := pageInfo.pageId } * 0.885 >
        ({ page with pageId := pageInfo.pageId } : Page).height * 1.05
    · rw [if_pos hc]; exact ⟨rfl, rfl, rfl, rfl, rfl, Or.inr rfl⟩
    · rw [if_neg hc]; exact ⟨rfl, rfl, rfl, rfl, rfl, Or.inl rfl⟩

/-- Witness for C10 (amended) at the concrete probe document. -/
theorem converter_frame_effect_witness :
    (probeInfo 5 1872).rmData = some (DecodeOutcome.ok (probePage 5 1872)) ∧
    (processPage (probeInfo 5 1872)).layers = (probePage 5 1872).layers ∧
    (processPage (probeInfo 5 1872)).width = (probePage 5 1872).width :=
  ⟨rfl,
   (converter_frame_effect (probeInfo 5 1872) (probePage 5 1872) rfl).1,
   (converter_frame_effect (probeInfo 5 1872) (probePage 5 1872) rfl).2.2.2.1⟩

end RemarkableSync
